import Mathlib

/-!
Verification of the VAE latent-unit module (`latents.py`) of the
`vae-tutorial` repository.

The module defines a base `Latent` layer (holding `dim` and a `prior` and a
shape-inference method `compute_output_shape`) and a concrete
`DiagonalGaussianLatent` with learned projections `dense_mean`,
`dense_log_var`, a reparameterized sampling method `call`, a posterior
log-density `log_prob`, a Monte-Carlo KL estimator `sample_kl` and a
closed-form estimator `analytic_kl` that requires the prior to be the
isotropic standard Gaussian.

Tensors of shape `(batch, dim)` are embedded as functions
`Fin batch → Fin dim → ℝ`; the numeric code is modelled over the real
numbers.  The mutable forward-pass attributes `self.mean`, `self.log_var`,
`self.sample` (set by `call`, read by the other methods) become an
`Option`-valued cached-state field: `none` models a freshly constructed
layer on which the attributes do not exist yet, so that reading them
raises Python's `AttributeError`; in the embedding such a read yields the
error value `LatentError.stateNotInitialized`.  The `TypeError` raised by
`analytic_kl` for a non-isotropic prior becomes `LatentError.priorNotIso`.
-/

set_option autoImplicit false

namespace VaeTutorial

/-- The dynamic class of a prior object, as inspected by
`isinstance(self.prior, IsoGaussianPrior)` in `analytic_kl`.  The
repository distinguishes only the isotropic standard Gaussian from every
other prior class. -/
inductive PriorClass where
  | isoGaussian : PriorClass
  | otherPrior : PriorClass
deriving DecidableEq, Repr

/-- The prior interface as used by `latents.py` (`priors.py` itself is a
separate module): an object with a dynamic class tag and a per-row
log-density query `log_prob` over vectors of the latent dimensionality. -/
structure Prior (dim : ℕ) where
  priorClass : PriorClass
  logProb : (Fin dim → ℝ) → ℝ

/-- `isinstance(p, IsoGaussianPrior)`. -/
def Prior.isIso {dim : ℕ} (p : Prior dim) : Bool :=
  p.priorClass = PriorClass.isoGaussian

/-- The forward-pass state cached by `call`: the attributes `self.mean`,
`self.log_var`, `self.sample`, each a tensor of shape `(batch, dim)`. -/
structure FwdState (batch dim : ℕ) where
  mean : Fin batch → Fin dim → ℝ
  log_var : Fin batch → Fin dim → ℝ
  sample : Fin batch → Fin dim → ℝ

/-- Errors surfaced by the latent unit: `stateNotInitialized` models the
`AttributeError` raised when `self.mean` / `self.log_var` / `self.sample`
are read before any `call`; `priorNotIso` models the `TypeError` raised by
`analytic_kl` when the prior is not an `IsoGaussianPrior`. -/
inductive LatentError where
  | stateNotInitialized : LatentError
  | priorNotIso : LatentError
deriving DecidableEq, Repr

/-- The `DiagonalGaussianLatent` layer.  `dim` and the weight shapes
`(input_dim, dim)` are fixed at construction/build time, so they are type
parameters; `state` is the mutable forward-pass cache (`none` before the
first `call`). -/
structure DiagonalGaussianLatent (input_dim dim : ℕ) where
  prior : Prior dim
  dense_mean : Fin input_dim → Fin dim → ℝ
  dense_log_var : Fin input_dim → Fin dim → ℝ
  state : Option (Σ batch : ℕ, FwdState batch dim)

/-- `K.dot(x, w)` for a batch `x : (batch, input_dim)` and a kernel
`w : (input_dim, dim)`. -/
noncomputable def kDot {batch input_dim dim : ℕ}
    (x : Fin batch → Fin input_dim → ℝ) (w : Fin input_dim → Fin dim → ℝ) :
    Fin batch → Fin dim → ℝ :=
  fun r c => ∑ k, x r k * w k c

/-- `Latent.compute_output_shape`: `tuple(input_shape[:-1]) + (self.dim,)`. -/
def compute_output_shape (dim : ℕ) (input_shape : List ℕ) : List ℕ :=
  input_shape.dropLast ++ [dim]

namespace DiagonalGaussianLatent

/-- `DiagonalGaussianLatent.call`, with the standard-normal source
externalized as the argument `eps` (the draw `K.random_normal`): computes
`mean = K.dot(x, dense_mean)`, `log_var = K.dot(x, dense_log_var)`,
`std = exp(log_var / 2)`, `sample = mean + eps * std`; caches
`mean`, `log_var`, `sample` (overwriting any previous state) and returns
`sample` together with the updated layer. -/
noncomputable def call {input_dim dim : ℕ} (L : DiagonalGaussianLatent input_dim dim)
    {batch : ℕ} (x : Fin batch → Fin input_dim → ℝ) (eps : Fin batch → Fin dim → ℝ) :
    (Fin batch → Fin dim → ℝ) × DiagonalGaussianLatent input_dim dim :=
  let mean := kDot x L.dense_mean
  let log_var := kDot x L.dense_log_var
  let std := fun r c => Real.exp (log_var r c / 2)
  let sample := fun r c => mean r c + eps r c * std r c
  (sample, { L with state := some ⟨batch, ⟨mean, log_var, sample⟩⟩ })

/-- The body of `DiagonalGaussianLatent.log_prob` on a given forward-pass
state: `variance = exp(log_var)`, `log_det = sum(log_var, axis=-1)`,
result `-(sum((x_diff / variance) * x_diff, axis=-1) + log_det) / 2`. -/
noncomputable def logProbRows {batch dim : ℕ} (s : FwdState batch dim)
    (x : Fin batch → Fin dim → ℝ) : Fin batch → ℝ :=
  fun r =>
    -((∑ c, (x r c - s.mean r c) / Real.exp (s.log_var r c) * (x r c - s.mean r c)) +
        ∑ c, s.log_var r c) / 2

/-- `DiagonalGaussianLatent.log_prob`: reads the cached `mean`/`log_var`
(an `AttributeError`, i.e. `stateNotInitialized`, if `call` never ran;
a batch-shape mismatch between `x` and the cache is a broadcast error in
the host framework and is modelled by the same error type). -/
noncomputable def log_prob {input_dim dim : ℕ} (L : DiagonalGaussianLatent input_dim dim)
    {batch : ℕ} (x : Fin batch → Fin dim → ℝ) : Except LatentError (Fin batch → ℝ) :=
  match L.state with
  | none => .error .stateNotInitialized
  | some ⟨b, s⟩ =>
    if h : b = batch then .ok (logProbRows (h ▸ s) x)
    else .error .stateNotInitialized

/-- `DiagonalGaussianLatent.sample_kl`:
`self.log_prob(self.sample) - self.prior.log_prob(self.sample)`, read from
the cached state. -/
noncomputable def sample_kl {input_dim dim : ℕ}
    (L : DiagonalGaussianLatent input_dim dim) :
    Except LatentError (Σ batch : ℕ, Fin batch → ℝ) :=
  match L.state with
  | none => .error .stateNotInitialized
  | some ⟨b, s⟩ =>
    .ok ⟨b, fun r => logProbRows s s.sample r - L.prior.logProb (s.sample r)⟩

/-- `DiagonalGaussianLatent.analytic_kl`: after the
`isinstance(self.prior, IsoGaussianPrior)` check, computes per row
`(-sum(log_var) - dim + sum(exp(log_var)) + sum(mean**2)) / 2`; raises
`TypeError` (`priorNotIso`) otherwise. -/
noncomputable def analytic_kl {input_dim dim : ℕ}
    (L : DiagonalGaussianLatent input_dim dim) :
    Except LatentError (Σ batch : ℕ, Fin batch → ℝ) :=
  if L.prior.isIso then
    match L.state with
    | none => .error .stateNotInitialized
    | some ⟨b, s⟩ =>
      .ok ⟨b, fun r =>
        (-(∑ c, s.log_var r c) - (dim : ℝ) + (∑ c, Real.exp (s.log_var r c)) +
          ∑ c, s.mean r c ^ 2) / 2⟩
  else .error .priorNotIso

end DiagonalGaussianLatent

/-- A method invocation on the layer, used to state frame properties: the
source bodies of `log_prob`, `sample_kl` and `analytic_kl` contain no
assignment to `self`, so running them leaves the layer unchanged, while
`call` assigns `self.mean`, `self.log_var`, `self.sample`. -/
inductive MethodCall (input_dim dim : ℕ) where
  | callM (batch : ℕ) (x : Fin batch → Fin input_dim → ℝ)
      (eps : Fin batch → Fin dim → ℝ) : MethodCall input_dim dim
  | logProbM (batch : ℕ) (x : Fin batch → Fin dim → ℝ) : MethodCall input_dim dim
  | sampleKlM : MethodCall input_dim dim
  | analyticKlM : MethodCall input_dim dim

/-- The layer after one method invocation: `call` installs the new cached
state; the three query methods perform no assignment to `self` and return
the layer as it was. -/
noncomputable def runMethod {input_dim dim : ℕ}
    (L : DiagonalGaussianLatent input_dim dim) :
    MethodCall input_dim dim → DiagonalGaussianLatent input_dim dim
  | .callM _ x eps => (L.call x eps).2
  | .logProbM _ _ => L
  | .sampleKlM => L
  | .analyticKlM => L

/-- Whether a method invocation is a `call` (sampling) invocation. -/
def MethodCall.isCall {input_dim dim : ℕ} :
    MethodCall input_dim dim → Bool
  | .callM _ _ _ => true
  | _ => false

/-! ### Shape-level model of `call`

`K.dot`, the `eps` draw and the broadcast `mean + eps * std` also have a
shape-level semantics, needed for the claims about input rank: the code
draws `eps` at shape `(K.shape(self.mean)[0], self.dim)` — always rank 2 —
whatever the rank of the input. -/

/-- Shape of `K.dot(x, w)` for an input of shape `xShape` and a kernel of
shape `(input_dim, dim)`: the trailing axis is contracted and replaced by
`dim`. -/
def dotShape (xShape : List ℕ) (dim : ℕ) : List ℕ :=
  xShape.dropLast ++ [dim]

/-- The shape `(K.shape(self.mean)[0], self.dim)` at which `call` draws
`eps`: the first axis of `mean` together with `dim`, hence two-dimensional
regardless of the rank of the input. -/
def epsShape (xShape : List ℕ) (dim : ℕ) : List ℕ :=
  [(dotShape xShape dim).headD 0, dim]

/-- Numpy-style broadcasting of one aligned axis pair: a size-1 axis
stretches to the other size, equal sizes agree, anything else errors. -/
def broadcastDim (m n : ℕ) : Option ℕ :=
  if m = 1 then some n
  else if n = 1 then some m
  else if m = n then some m
  else none

/-- Broadcasting of two shapes given axis-reversed (trailing axis first). -/
def broadcastRev : List ℕ → List ℕ → Option (List ℕ)
  | [], t => some t
  | s, [] => some s
  | a :: s, b :: t => do
    let d ← broadcastDim a b
    let rest ← broadcastRev s t
    pure (d :: rest)

/-- Numpy-style broadcasting of two shapes, aligning trailing axes;
`none` is a broadcast error. -/
def broadcastShapes (s t : List ℕ) : Option (List ℕ) :=
  (broadcastRev s.reverse t.reverse).map List.reverse

/-- Shape of `self.sample = self.mean + eps * std` in `call`: the
broadcast of the shape of `mean` (also the shape of `std`) with the shape
of `eps`. -/
def sampleShape (xShape : List ℕ) (dim : ℕ) : Option (List ℕ) :=
  broadcastShapes (dotShape xShape dim) (epsShape xShape dim)

/-- Number of elements of a tensor of the given shape. -/
def numel (s : List ℕ) : ℕ := s.prod

/-! ### Concrete instances used by the witnesses -/

/-- A concrete prior object of the isotropic-Gaussian class. -/
def isoPriorEx : Prior 2 :=
  ⟨PriorClass.isoGaussian, fun _ => 0⟩

/-- A concrete prior object of some other class. -/
def otherPriorEx : Prior 2 :=
  ⟨PriorClass.otherPrior, fun _ => 0⟩

/-- A concrete cached forward-pass state (batch 1, dim 2), all zeros. -/
def zeroState : FwdState 1 2 :=
  ⟨fun _ _ => 0, fun _ _ => 0, fun _ _ => 0⟩

/-- A concrete latent unit with an isotropic prior and an initialized
(zero) cached state. -/
def unitEx : DiagonalGaussianLatent 3 2 :=
  ⟨isoPriorEx, fun _ _ => 0, fun _ _ => 0, some ⟨1, zeroState⟩⟩

/-- A freshly constructed latent unit (no cached state) with an
isotropic prior. -/
def freshIsoUnit : DiagonalGaussianLatent 3 2 :=
  ⟨isoPriorEx, fun _ _ => 0, fun _ _ => 0, none⟩

/-- A freshly constructed latent unit (no cached state) whose prior is
not an `IsoGaussianPrior`. -/
def freshOtherUnit : DiagonalGaussianLatent 3 2 :=
  ⟨otherPriorEx, fun _ _ => 0, fun _ _ => 0, none⟩

/-! ## Theorems -/

/-- Helper: evaluation of `analytic_kl` on a unit with an isotropic prior
and an initialized cached state. -/
theorem analytic_kl_eval {input_dim dim batch : ℕ}
    (L : DiagonalGaussianLatent input_dim dim) (s : FwdState batch dim)
    (hst : L.state = some ⟨batch, s⟩) (hiso : L.prior.isIso = true) :
    L.analytic_kl = .ok ⟨batch, fun r =>
      (-(∑ c, s.log_var r c) - (dim : ℝ) + (∑ c, Real.exp (s.log_var r c)) +
        ∑ c, s.mean r c ^ 2) / 2⟩ := by
  unfold DiagonalGaussianLatent.analytic_kl
  rw [hiso, hst]
  simp

/-- C1: for every cached state `(mean, log_var)` of shape `(batch, dim)`,
`analytic_kl()` returns, per batch row, exactly
`(-sum(log_var) - dim + sum(exp(log_var)) + sum(mean^2)) / 2`. -/
theorem analytic_kl_closed_form {input_dim dim batch : ℕ}
    (L : DiagonalGaussianLatent input_dim dim) (s : FwdState batch dim)
    (hst : L.state = some ⟨batch, s⟩) (hiso : L.prior.isIso = true) :
    L.analytic_kl = .ok ⟨batch, fun r =>
      (-(∑ c, s.log_var r c) - (dim : ℝ) + (∑ c, Real.exp (s.log_var r c)) +
        ∑ c, s.mean r c ^ 2) / 2⟩ :=
  analytic_kl_eval L s hst hiso

/-- C1 witness: the closed form evaluated on a concrete unit with an
all-zero cached state of batch 1, dim 2. -/
theorem analytic_kl_closed_form_witness :
    unitEx.analytic_kl = .ok ⟨1, fun r =>
      (-(∑ c, zeroState.log_var r c) - ((2 : ℕ) : ℝ) +
        (∑ c, Real.exp (zeroState.log_var r c)) +
        ∑ c, zeroState.mean r c ^ 2) / 2⟩ :=
  analytic_kl_closed_form unitEx zeroState rfl rfl

/-- C2: `analytic_kl` raises the configuration `TypeError` exactly when
the unit's prior is not an `IsoGaussianPrior`: with a non-isotropic prior
the result is always that error (no silent fallback), and with an
isotropic prior that error is never produced. -/
theorem analytic_kl_prior_check {input_dim dim : ℕ}
    (L : DiagonalGaussianLatent input_dim dim) :
    L.analytic_kl = .error .priorNotIso ↔ L.prior.isIso = false := by
  unfold DiagonalGaussianLatent.analytic_kl
  cases h : L.prior.isIso
  · simp
  · simp only [if_true]
    cases hs : L.state with
    | none => simp
    | some st => cases st with
      | mk b s => simp

/-- C3: `call` computes `mean = x · W_mean` and `log_var = x · W_logvar`,
returns `sample = mean + eps * exp(log_var / 2)` elementwise, and caches
`mean`, `log_var`, `sample`, overwriting any previous cached state; with
the noise source fixed to the constant `z` the returned sample is
`mean + z * exp(log_var / 2)`, and with `z = 0` it is exactly `mean`. -/
theorem call_spec {input_dim dim batch : ℕ}
    (L : DiagonalGaussianLatent input_dim dim)
    (x : Fin batch → Fin input_dim → ℝ) (eps : Fin batch → Fin dim → ℝ)
    (z : ℝ) :
    ((L.call x eps).1 = fun r c =>
      kDot x L.dense_mean r c +
        eps r c * Real.exp (kDot x L.dense_log_var r c / 2)) ∧
    (L.call x eps).2.state = some ⟨batch,
      ⟨kDot x L.dense_mean, kDot x L.dense_log_var, (L.call x eps).1⟩⟩ ∧
    ((L.call x (fun _ _ => z)).1 = fun r c =>
      kDot x L.dense_mean r c +
        z * Real.exp (kDot x L.dense_log_var r c / 2)) ∧
    (L.call x (fun _ _ => 0)).1 = kDot x L.dense_mean := by
  refine ⟨rfl, rfl, rfl, ?_⟩
  funext r c
  show kDot x L.dense_mean r c +
      0 * Real.exp (kDot x L.dense_log_var r c / 2) = kDot x L.dense_mean r c
  ring

/-- C4: `log_prob(x)` returns, per row,
`-( sum((x - mean)^2 / exp(log_var)) + sum(log_var) ) / 2`, computed from
the currently cached `mean` and `log_var` and from no other state; the
`(dim/2)*log(2π)` constant is omitted. -/
theorem log_prob_spec {input_dim dim batch : ℕ}
    (L : DiagonalGaussianLatent input_dim dim) (s : FwdState batch dim)
    (hst : L.state = some ⟨batch, s⟩) (x : Fin batch → Fin dim → ℝ) :
    L.log_prob x = .ok (fun r =>
      -((∑ c, (x r c - s.mean r c) ^ 2 / Real.exp (s.log_var r c)) +
          ∑ c, s.log_var r c) / 2) := by
  unfold DiagonalGaussianLatent.log_prob
  rw [hst]
  simp only []
  rw [dif_pos trivial]
  refine congrArg Except.ok (funext fun r => ?_)
  have h : (∑ c, (x r c - s.mean r c) / Real.exp (s.log_var r c) *
        (x r c - s.mean r c)) =
      ∑ c, (x r c - s.mean r c) ^ 2 / Real.exp (s.log_var r c) :=
    Finset.sum_congr rfl fun c _ => by ring
  simp [DiagonalGaussianLatent.logProbRows, h]

/-- C5: `sample_kl()` returns, per batch row, exactly
`log_prob(sample) - prior.log_prob(sample)` evaluated at the cached
sample of the most recent sampling call; the first term agrees with the
unit's own `log_prob` method applied to that cached sample. -/
theorem sample_kl_spec {input_dim dim batch : ℕ}
    (L : DiagonalGaussianLatent input_dim dim) (s : FwdState batch dim)
    (hst : L.state = some ⟨batch, s⟩) :
    L.sample_kl = .ok ⟨batch, fun r =>
      DiagonalGaussianLatent.logProbRows s s.sample r -
        L.prior.logProb (s.sample r)⟩ ∧
    L.log_prob s.sample = .ok (DiagonalGaussianLatent.logProbRows s s.sample) := by
  constructor
  · unfold DiagonalGaussianLatent.sample_kl
    rw [hst]
  · unfold DiagonalGaussianLatent.log_prob
    rw [hst]
    simp only []
    rw [dif_pos trivial]

/-- C4 witness: `log_prob` on a concrete unit with zero cached state,
queried at the constant-one batch. -/
theorem log_prob_spec_witness :
    unitEx.log_prob (fun _ _ => (1 : ℝ)) = .ok (fun r =>
      -((∑ c, ((1 : ℝ) - zeroState.mean r c) ^ 2 /
            Real.exp (zeroState.log_var r c)) +
          ∑ c, zeroState.log_var r c) / 2) :=
  log_prob_spec unitEx zeroState rfl (fun _ _ => 1)

/-- C5 witness: `sample_kl` on a concrete unit with zero cached state. -/
theorem sample_kl_spec_witness :
    (unitEx.sample_kl = .ok ⟨1, fun r =>
      DiagonalGaussianLatent.logProbRows zeroState zeroState.sample r -
        unitEx.prior.logProb (zeroState.sample r)⟩) ∧
    unitEx.log_prob zeroState.sample =
      .ok (DiagonalGaussianLatent.logProbRows zeroState zeroState.sample) :=
  sample_kl_spec unitEx zeroState rfl

/-- Helper: the analytic-KL row value rearranged as a sum of per-dimension
terms. -/
theorem klRow_eq {dim : ℕ} (m lv : Fin dim → ℝ) :
    -(∑ c, lv c) - (dim : ℝ) + (∑ c, Real.exp (lv c)) + ∑ c, m c ^ 2 =
      ∑ c, (Real.exp (lv c) - lv c - 1 + m c ^ 2) := by
  rw [Finset.sum_add_distrib, Finset.sum_sub_distrib, Finset.sum_sub_distrib,
    Finset.sum_const, Finset.card_univ, Fintype.card_fin]
  ring

/-- Helper: every analytic-KL row value is non-negative, since
`exp t ≥ t + 1` per dimension. -/
theorem klRow_nonneg {dim : ℕ} (m lv : Fin dim → ℝ) :
    0 ≤ (-(∑ c, lv c) - (dim : ℝ) + (∑ c, Real.exp (lv c)) +
        ∑ c, m c ^ 2) / 2 := by
  rw [klRow_eq]
  have hs : 0 ≤ ∑ c, (Real.exp (lv c) - lv c - 1 + m c ^ 2) := by
    refine Finset.sum_nonneg fun c _ => ?_
    have h1 := Real.add_one_le_exp (lv c)
    nlinarith [sq_nonneg (m c)]
  linarith

/-- C6: every per-row value returned by `analytic_kl()` is non-negative,
and it is exactly `0` on every row whose cached `mean` and `log_var` are
identically zero (posterior equal to the prior). -/
theorem analytic_kl_nonneg {input_dim dim batch : ℕ}
    (L : DiagonalGaussianLatent input_dim dim) (s : FwdState batch dim)
    (hst : L.state = some ⟨batch, s⟩) (hiso : L.prior.isIso = true) :
    ∃ kl : Fin batch → ℝ,
      L.analytic_kl = .ok ⟨batch, kl⟩ ∧
      (∀ r, 0 ≤ kl r) ∧
      (∀ r, (∀ c, s.mean r c = 0) → (∀ c, s.log_var r c = 0) → kl r = 0) := by
  refine ⟨_, analytic_kl_eval L s hst hiso,
    fun r => klRow_nonneg (s.mean r) (s.log_var r), ?_⟩
  intro r hm hlv
  simp [hm, hlv, Real.exp_zero, Finset.sum_const, Finset.card_univ]

/-- C6 witness: non-negativity and the zero case on a concrete unit whose
cached state is identically zero. -/
theorem analytic_kl_nonneg_witness :
    ∃ kl : Fin 1 → ℝ,
      unitEx.analytic_kl = .ok ⟨1, kl⟩ ∧
      (∀ r, 0 ≤ kl r) ∧
      (∀ r, (∀ c, zeroState.mean r c = 0) →
        (∀ c, zeroState.log_var r c = 0) → kl r = 0) :=
  analytic_kl_nonneg unitEx zeroState rfl rfl

/-- C7: `compute_output_shape` preserves every leading dimension and
replaces only the trailing feature axis by `dim`; in the embedding it is a
pure function of the shape (it reads and returns no layer state). -/
theorem compute_output_shape_spec (dim input_dim : ℕ) (leading : List ℕ) :
    compute_output_shape dim (leading ++ [input_dim]) = leading ++ [dim] := by
  simp [compute_output_shape]

/-- C8 counterexample: a freshly constructed unit whose prior is not an
`IsoGaussianPrior`; `analytic_kl` fails with the prior `TypeError`
(`priorNotIso`), not with the state-not-initialized error the claim
asserts for all three methods. -/
theorem fresh_other_analytic_kl_error :
    freshOtherUnit.state = none ∧
    freshOtherUnit.analytic_kl = Except.error LatentError.priorNotIso ∧
    freshOtherUnit.analytic_kl ≠ Except.error LatentError.stateNotInitialized := by
  refine ⟨rfl, rfl, ?_⟩
  have h : freshOtherUnit.analytic_kl = Except.error LatentError.priorNotIso := rfl
  rw [h]
  simp

/-- C8 (amended): on a freshly constructed unit (no cached state),
`log_prob` and `sample_kl` fail fast with the state-not-initialized error;
`analytic_kl` also fails fast with an error rather than computing from
stale or default values — the state-not-initialized error when the prior
is the isotropic Gaussian, the prior `TypeError` otherwise (its prior
check runs first). -/
theorem fresh_unit_methods_fail {input_dim dim : ℕ}
    (L : DiagonalGaussianLatent input_dim dim) (hfresh : L.state = none) :
    (∀ (batch : ℕ) (x : Fin batch → Fin dim → ℝ),
      L.log_prob x = .error .stateNotInitialized) ∧
    L.sample_kl = .error .stateNotInitialized ∧
    (L.prior.isIso = true → L.analytic_kl = .error .stateNotInitialized) ∧
    (L.prior.isIso = false → L.analytic_kl = .error .priorNotIso) := by
  refine ⟨?_, ?_, ?_, ?_⟩
  · intro batch x
    unfold DiagonalGaussianLatent.log_prob
    rw [hfresh]
  · unfold DiagonalGaussianLatent.sample_kl
    rw [hfresh]
  · intro hiso
    unfold DiagonalGaussianLatent.analytic_kl
    rw [hiso, hfresh]
    simp
  · intro hiso
    unfold DiagonalGaussianLatent.analytic_kl
    rw [hiso]
    simp

/-- C8 witness: the amended behaviour on a concrete fresh unit with an
isotropic prior: all three query methods fail with the
state-not-initialized error. -/
theorem fresh_unit_methods_fail_witness :
    freshIsoUnit.log_prob ((fun _ _ => (0 : ℝ)) : Fin 1 → Fin 2 → ℝ) =
      .error .stateNotInitialized ∧
    freshIsoUnit.sample_kl = .error .stateNotInitialized ∧
    freshIsoUnit.analytic_kl = .error .stateNotInitialized :=
  ⟨(fresh_unit_methods_fail freshIsoUnit rfl).1 1 (fun _ _ => 0),
   (fresh_unit_methods_fail freshIsoUnit rfl).2.1,
   (fresh_unit_methods_fail freshIsoUnit rfl).2.2.1 rfl⟩

/-- C9: the query methods `log_prob`, `sample_kl` and `analytic_kl` never
modify the layer: any sequence of non-`call` invocations leaves the layer
— cached state, both weight kernels and the prior reference — exactly as
it was; only `call` overwrites the cached state, and it changes nothing
but the cached state. -/
theorem query_methods_frame {input_dim dim : ℕ}
    (L : DiagonalGaussianLatent input_dim dim)
    (ms : List (MethodCall input_dim dim))
    (hq : ∀ m ∈ ms, m.isCall = false) :
    ms.foldl runMethod L = L ∧
    ∀ (batch : ℕ) (x : Fin batch → Fin input_dim → ℝ)
      (eps : Fin batch → Fin dim → ℝ),
      (L.call x eps).2.prior = L.prior ∧
      (L.call x eps).2.dense_mean = L.dense_mean ∧
      (L.call x eps).2.dense_log_var = L.dense_log_var ∧
      (L.call x eps).2.state = some ⟨batch, ⟨kDot x L.dense_mean,
        kDot x L.dense_log_var, (L.call x eps).1⟩⟩ := by
  refine ⟨?_, fun batch x eps => ⟨rfl, rfl, rfl, rfl⟩⟩
  revert hq
  induction ms generalizing L with
  | nil => intro _; rfl
  | cons m t ih =>
    intro hq
    have hm : m.isCall = false := hq m (List.mem_cons_self m t)
    have hL : runMethod L m = L := by
      cases m with
      | callM b x eps => simp [MethodCall.isCall] at hm
      | logProbM b x => rfl
      | sampleKlM => rfl
      | analyticKlM => rfl
    rw [List.foldl_cons, hL]
    exact ih L fun m' h' => hq m' (List.mem_cons_of_mem m h')

/-- C9 witness: a concrete sequence of the three query methods leaves a
concrete initialized unit unchanged. -/
theorem query_methods_frame_witness :
    ([MethodCall.sampleKlM, MethodCall.analyticKlM,
        MethodCall.logProbM 1 (fun _ _ => 0)] :
      List (MethodCall 3 2)).foldl runMethod unitEx = unitEx :=
  (query_methods_frame unitEx _ (by
    intro m hm
    simp only [List.mem_cons, List.not_mem_nil, or_false] at hm
    rcases hm with rfl | rfl | rfl <;> rfl)).1

/-- Helper: broadcasting an axis size with itself succeeds and keeps it. -/
theorem broadcastDim_self (n : ℕ) : broadcastDim n n = some n := by
  unfold broadcastDim
  split_ifs <;> simp_all

/-- Helper: broadcasting a reversed shape with itself succeeds. -/
theorem broadcastRev_self (s : List ℕ) : broadcastRev s s = some s := by
  induction s with
  | nil => rfl
  | cons a t ih => simp [broadcastRev, broadcastDim_self, ih]

/-- Helper: broadcasting a shape with itself succeeds and keeps it. -/
theorem broadcastShapes_self (s : List ℕ) : broadcastShapes s s = some s := by
  simp [broadcastShapes, broadcastRev_self]

/-- C10: `call` draws `eps` at the two-dimensional shape
`(K.shape(mean)[0], dim)` whatever the input rank.  For every 2-D input
`(batch, input_dim)` the draw has exactly the contracted output shape —
one independent draw per output element — and the returned sample matches
the output-shape contract; for inputs with additional leading dimensions
this guarantee fails: a generic 3-D input breaks broadcasting outright,
and even where broadcasting happens to succeed the draw has fewer elements
than the output. -/
theorem eps_draw_shape_spec (b i d : ℕ) :
    (∀ xShape : List ℕ, (epsShape xShape d).length = 2) ∧
    epsShape [b, i] d = [b, d] ∧
    sampleShape [b, i] d = some (compute_output_shape d [b, i]) ∧
    numel (epsShape [b, i] d) = numel (compute_output_shape d [b, i]) ∧
    epsShape [2, 3, 7] 4 = [2, 4] ∧
    sampleShape [2, 3, 7] 4 = none ∧
    sampleShape [5, 5, 7] 4 = some (compute_output_shape 4 [5, 5, 7]) ∧
    numel (epsShape [5, 5, 7] 4) ≠ numel (compute_output_shape 4 [5, 5, 7]) := by
  refine ⟨fun xShape => rfl, rfl, ?_, rfl, by decide, by decide, by decide,
    by decide⟩
  exact broadcastShapes_self [b, d]

end VaeTutorial
